import Mathlib

/-!
Shallow embedding of `src/mymoney/geektrust.py`: a command interpreter that
simulates an investment portfolio ledger.  Python floats are modelled as exact
rationals (`ℚ`), Python `int(·)` as truncation toward zero, Python dicts as
insertion-ordered association lists, and raising an exception as returning an
`Except PyError` / `Option` error value.
-/

/-- The Python exception kinds that the program can raise. -/
inductive PyError where
  | keyError : PyError
  | valueError : PyError
  | attributeError : PyError
deriving DecidableEq, Repr

/-- Python `str.lower()` restricted to the ASCII text this program handles. -/
def py_lower (s : String) : String :=
  String.mk (s.data.map Char.toLower)

/-- Membership test of a character in a character list (Python `c in s`). -/
def has_char : List Char → Char → Bool
  | [], _ => false
  | c :: rest, t => if c = t then true else has_char rest t

/-- Association-list lookup, Python `d[k]` read access (`none` = `KeyError`). -/
def lookupA {α β : Type} [DecidableEq α] : List (α × β) → α → Option β
  | [], _ => none
  | (k, v) :: rest, a => if a = k then some v else lookupA rest a

/-- Association-list store, Python `d[k] = v` (update in place or append). -/
def setAssoc {α β : Type} [DecidableEq α] : List (α × β) → α → β → List (α × β)
  | [], k, v => [(k, v)]
  | (k1, v1) :: rest, k, v =>
    if k = k1 then (k1, v) :: rest else (k1, v1) :: setAssoc rest k v

/-- `MONTH_NUMBER_`: lower-cased full month name to 1-based month number. -/
def MONTH_NUMBER_ : List (String × ℕ) :=
  [(("january"), 1), (("february"), 2), (("march"), 3), (("april"), 4),
   (("may"), 5), (("june"), 6), (("july"), 7), (("august"), 8),
   (("september"), 9), (("october"), 10), (("november"), 11), (("december"), 12)]

/-- `month_number_from_name`: dictionary access into `MONTH_NUMBER_`. -/
def month_number_from_name (name_of_the_month : String) : Option ℕ :=
  lookupA MONTH_NUMBER_ (py_lower name_of_the_month)

/-- Accumulating decimal-digit reader: `none` on the first non-digit. -/
def digits_go (acc : ℕ) : List Char → Option ℕ
  | [] => some acc
  | c :: rest => if c.isDigit then digits_go (acc * 10 + (c.toNat - 48)) rest else none

/-- Splits a character list at the first dot: `(before, after?)`. -/
def split_dot : List Char → List Char × Option (List Char)
  | [] => ([], none)
  | c :: rest =>
    if c = '.' then ([], some rest)
    else
      let r := split_dot rest
      (c :: r.1, r.2)

/-- Unsigned decimal literal as an exact rational (`none` = `ValueError`). -/
def py_float_core (cs : List Char) : Option ℚ :=
  match split_dot cs with
  | (ip, none) =>
    if ip = [] then none
    else
      match digits_go 0 ip with
      | some n => some ((n : ℚ))
      | none => none
  | (ip, some fp) =>
    if has_char fp ('.') then none
    else if ip = [] ∧ fp = [] then none
    else
      match digits_go 0 ip, digits_go 0 fp with
      | some n, some f => some ((n : ℚ) + (f : ℚ) / (10 : ℚ) ^ fp.length)
      | _, _ => none

/-- Python `float(s)` on the decimal literals this program consumes,
as an exact rational; `none` models the `ValueError` raised on bad input. -/
def py_float (s : String) : Option ℚ :=
  match s.data with
  | '-' :: r =>
    (match py_float_core r with
     | some q => some (-q)
     | none => none)
  | '+' :: r => py_float_core r
  | cs => py_float_core cs

/-- `parse_nums`: strip every percent sign and divide by 100, else plain parse. -/
def parse_nums (value : String) : Option ℚ :=
  if has_char value.data ('%') then
    (match py_float (String.mk (value.data.filter (fun c => c ≠ '%'))) with
     | some q => some (q / 100)
     | none => none)
  else py_float value

/-- `list_of_strings_2_floats`: parse every token, propagating failure. -/
def list_of_strings_2_floats : List String → Option (List ℚ)
  | [] => some []
  | s :: rest =>
    match parse_nums s, list_of_strings_2_floats rest with
    | some v, some vs => some (v :: vs)
    | _, _ => none

/-- The `Command` named tuple: name, values keyed by asset name, month. -/
structure Command where
  name : String := ""
  values : List (String × ℚ) := []
  month : ℕ := 0
deriving DecidableEq, Repr

/-- Splits a nonempty list into its leading part and last element
(Python `*init, last = l`); `none` only on the empty list. -/
def split_last {α : Type} : List α → Option (List α × α)
  | [] => none
  | [a] => some ([], a)
  | a :: b :: rest =>
    match split_last (b :: rest) with
    | some (ini, l) => some (a :: ini, l)
    | none => none

/-- One iteration of the `parse_list_2_commands` loop: the commands yielded
for a single tokenized line (`none` = a `ValueError` escaping the generator). -/
def parse_line_2_commands (commands : List String) (asset_order : List String) :
    Option (List Command) :=
  match commands with
  | [] => some []
  | [c] => some [{ name := py_lower c, values := [], month := 0 }]
  | command :: r :: rest =>
    match split_last (r :: rest) with
    | some (string_values, month_name) =>
      match month_number_from_name month_name with
      | some month =>
        (match list_of_strings_2_floats string_values with
         | some values =>
           some [{ name := py_lower command, values := asset_order.zip values,
                   month := month }]
         | none => none)
      | none =>
        (match list_of_strings_2_floats (r :: rest) with
         | some values =>
           some [{ name := py_lower command, values := asset_order.zip values,
                   month := 0 }]
         | none => none)
    | none => some []

/-- `parse_list_2_commands`: the commands the generator yields, in input
order, one sub-list per input line. -/
def parse_list_2_commands (list_of_commands : List (List String))
    (asset_order : List String) : Option (List Command) :=
  match list_of_commands with
  | [] => some []
  | l :: ls =>
    match parse_line_2_commands l asset_order, parse_list_2_commands ls asset_order with
    | some cs, some rest => some (cs ++ rest)
    | _, _ => none

/-- `bank_rounding_system`: Python `int(·)`, truncation toward zero. -/
def bank_rounding_system (allocation : ℚ) : ℤ :=
  if allocation < 0 then -⌊-allocation⌋ else ⌊allocation⌋

/-- An `Asset`: name, integer balance, percentage weight. -/
structure Asset where
  name : String
  allocation : ℤ
  weight : ℤ
deriving DecidableEq, Repr

/-- The `allocation` property setter: every store is truncated. -/
def Asset.setAllocation (a : Asset) (x : ℚ) : Asset :=
  { a with allocation := bank_rounding_system x }

/-- The `weight` property setter validation plus field initialisation of
`Asset.__init__` (`.error .valueError` = the raised `ValueError`). -/
def Asset.build (name : String) (allocations : ℚ) (weight : ℤ) :
    Except PyError Asset :=
  if weight < 0 ∨ 100 < weight then .error .valueError
  else .ok { name := name, allocation := bank_rounding_system allocations, weight := weight }

/-- `Asset.monthly_rate_of_change`: `allocation *= 1 + rate`, truncated on store. -/
def Asset.monthly_rate_of_change (a : Asset) (rate : ℚ) : Asset :=
  a.setAllocation ((a.allocation : ℚ) * (1 + rate))

/-- An `InvestorPortfolio`: its name, its assets dict, its sip dict. -/
structure InvestorPortfolio where
  name : String
  assets : List (String × Asset)
  sip : List (String × ℚ)
deriving DecidableEq, Repr

/-- `InvestorPortfolio.__init__`: weight-sum validation, then the sip dict is
zero-initialised over the asset keys. -/
def InvestorPortfolio.build (name : String) (assets : List (String × Asset)) :
    Except PyError InvestorPortfolio :=
  if (assets.map (fun x => x.2.weight)).sum = 100 then
    .ok { name := name, assets := assets,
          sip := assets.map (fun x => (x.1, (0 : ℚ))) }
  else .error .valueError

/-- Python `self.assets[name].allocation += value` applied to an assets dict;
`none` is the `KeyError` on a missing asset name. -/
def addToAsset (assets : List (String × Asset)) (name : String) (value : ℚ) :
    Option (List (String × Asset)) :=
  match lookupA assets name with
  | some a => some (setAssoc assets name (a.setAllocation ((a.allocation : ℚ) + value)))
  | none => none

/-- `InvestorPortfolio.allocate`: add each value to the named asset, in
iteration order of the values dict. -/
def InvestorPortfolio.allocate (p : InvestorPortfolio) :
    List (String × ℚ) → Option InvestorPortfolio
  | [] => some p
  | (n, v) :: rest =>
    match addToAsset p.assets n v with
    | some as1 => InvestorPortfolio.allocate { p with assets := as1 } rest
    | none => none

/-- `InvestorPortfolio.add_sip`: allocate the stored sip dict. -/
def InvestorPortfolio.add_sip (p : InvestorPortfolio) : Option InvestorPortfolio :=
  p.allocate p.sip

/-- `InvestorPortfolio.change`: apply each rate to the named asset. -/
def InvestorPortfolio.change (p : InvestorPortfolio) :
    List (String × ℚ) → Option InvestorPortfolio
  | [] => some p
  | (n, r) :: rest =>
    match lookupA p.assets n with
    | some a =>
      InvestorPortfolio.change
        { p with assets := setAssoc p.assets n (a.monthly_rate_of_change r) } rest
    | none => none

/-- `InvestorPortfolio.rebalance`: total captured first, then every asset is
stored as `total * weight / 100` (truncated by the setter). -/
def InvestorPortfolio.rebalance (p : InvestorPortfolio) : InvestorPortfolio :=
  let total_allocation : ℤ := (p.assets.map (fun x => x.2.allocation)).sum
  { p with assets :=
      p.assets.map (fun x =>
        (x.1, x.2.setAllocation ((total_allocation : ℚ) * x.2.weight / 100))) }

/-- `InvestorPortfolio.balance`: the allocations in asset-dict order. -/
def InvestorPortfolio.balance (p : InvestorPortfolio) : List ℤ :=
  p.assets.map (fun x => x.2.allocation)

/-- `MoneyBank.SIP_MONTH`. -/
def SIP_MONTH : ℕ := 2

/-- `MoneyBank.REBALANCE_MONTHS`. -/
def REBALANCE_MONTHS : List ℕ := [6, 12]

/-- `MoneyBank.REBALANCE_ERROR_MSG`. -/
def REBALANCE_ERROR_MSG : String := "CANNOT_REBALANCE"

/-- `MoneyBank.INITIAL_MONTH`. -/
def INITIAL_MONTH : ℕ := 1

/-- The `MoneyBank` engine state.  `current_month` is `none` until first
assigned; reading it while `none` is Python's `AttributeError`. -/
structure MoneyBank where
  initial_month : ℕ
  investors : List (String × InvestorPortfolio)
  log : List (ℕ × List (String × List ℤ))
  current_month : Option ℕ
deriving DecidableEq, Repr

/-- `MoneyBank.__init__`: investors dict, log dict with keys
`range(len(MONTH_NUMBER_))`, and no `current_month` attribute. -/
def MoneyBank.init (investors : List InvestorPortfolio) : MoneyBank :=
  { initial_month := INITIAL_MONTH
    investors := investors.foldl (fun d inv => setAssoc d inv.name inv) []
    log := (List.range MONTH_NUMBER_.length).map (fun i => (i, []))
    current_month := none }

/-- Python `self.log[month][name] = vals`: the outer read may `KeyError`. -/
def logSet (log : List (ℕ × List (String × List ℤ))) (month : ℕ) (name : String)
    (vals : List ℤ) : Option (List (ℕ × List (String × List ℤ))) :=
  match lookupA log month with
  | some inner => some (setAssoc log month (setAssoc inner name vals))
  | none => none

/-- `MoneyBank.allocate`. -/
def MoneyBank.allocate (b : MoneyBank) (name : String) (values : List (String × ℚ)) :
    Except PyError MoneyBank :=
  match lookupA b.investors name with
  | none => .error .keyError
  | some p =>
    match p.allocate values with
    | some p1 => .ok { b with investors := setAssoc b.investors name p1 }
    | none => .error .keyError

/-- `MoneyBank.sip`: replaces the named investor's sip dict wholesale. -/
def MoneyBank.sip (b : MoneyBank) (name : String) (sip_amounts : List (String × ℚ)) :
    Except PyError MoneyBank :=
  match lookupA b.investors name with
  | none => .error .keyError
  | some p => .ok { b with investors := setAssoc b.investors name { p with sip := sip_amounts } }

/-- `MoneyBank.change`: assign `current_month`, conditionally apply the sip,
apply the rates, then record the snapshot in the log. -/
def MoneyBank.change (b : MoneyBank) (name : String) (rates : List (String × ℚ))
    (month : ℕ) : Except PyError MoneyBank :=
  let b1 : MoneyBank := { b with current_month := some month }
  let step1 : Except PyError MoneyBank :=
    if SIP_MONTH ≤ month then
      match lookupA b1.investors name with
      | none => .error .keyError
      | some p =>
        match p.add_sip with
        | some p1 => .ok { b1 with investors := setAssoc b1.investors name p1 }
        | none => .error .keyError
    else .ok b1
  match step1 with
  | .error e => .error e
  | .ok b2 =>
    match lookupA b2.investors name with
    | none => .error .keyError
    | some p =>
      match p.change rates with
      | none => .error .keyError
      | some p1 =>
        let b3 : MoneyBank := { b2 with investors := setAssoc b2.investors name p1 }
        match logSet b3.log month name p1.balance with
        | some log1 => .ok { b3 with log := log1 }
        | none => .error .keyError

/-- `MoneyBank.balance`: read the recorded snapshot `log[month][name]`. -/
def MoneyBank.balance (b : MoneyBank) (name : String) (month : ℕ) :
    Except PyError (List ℤ) :=
  match lookupA b.log month with
  | none => .error .keyError
  | some inner =>
    match lookupA inner name with
    | none => .error .keyError
    | some vals => .ok vals

/-- `MoneyBank.rebalance`: reads `current_month` (AttributeError when never
assigned); outside the rebalance months prints `CANNOT_REBALANCE` and returns
`false` without mutating anything; otherwise rebalances and logs a snapshot.
The returned triple is (return value, new state, printed lines). -/
def MoneyBank.rebalance (b : MoneyBank) (name : String) :
    Except PyError (Bool × MoneyBank × List String) :=
  match b.current_month with
  | none => .error .attributeError
  | some m =>
    if m ∈ REBALANCE_MONTHS then
      match lookupA b.investors name with
      | none => .error .keyError
      | some p =>
        let p1 := p.rebalance
        let b1 : MoneyBank := { b with investors := setAssoc b.investors name p1 }
        match logSet b1.log m name p1.balance with
        | some log1 => .ok (true, { b1 with log := log1 }, [])
        | none => .error .keyError
    else .ok (false, b, [REBALANCE_ERROR_MSG])

/-- Python `print(*values)` for a list of integers. -/
def print_values : List ℤ → String
  | [] => ""
  | v :: vs => vs.foldl (fun acc x => acc ++ " " ++ toString x) (toString v)

/-- One iteration of the dispatch loop of `execute_investor_commands`:
the state update and the lines printed by a single command. -/
def MoneyBank.dispatch (b : MoneyBank) (investor_name : String) (c : Command) :
    Except PyError (MoneyBank × List String) :=
  if c.name = "allocate" then
    match b.allocate investor_name c.values with
    | .ok b1 => .ok (b1, [])
    | .error e => .error e
  else if c.name = "sip" then
    match b.sip investor_name c.values with
    | .ok b1 => .ok (b1, [])
    | .error e => .error e
  else if c.name = "change" then
    match b.change investor_name c.values c.month with
    | .ok b1 => .ok (b1, [])
    | .error e => .error e
  else if c.name = "balance" then
    match b.balance investor_name c.month with
    | .ok vals => .ok (b, [print_values vals])
    | .error e => .error e
  else if c.name = "rebalance" then
    match b.rebalance investor_name with
    | .error e => .error e
    | .ok (true, b1, out) =>
      (match b1.current_month with
       | none => .error .attributeError
       | some m =>
         match b1.balance investor_name m with
         | .ok vals => .ok (b1, out ++ [print_values vals])
         | .error e => .error e)
    | .ok (false, b1, out) => .ok (b1, out)
  else .ok (b, [])

/-- Runs a list of already-parsed commands, accumulating printed lines; on an
uncaught exception the lines printed so far are kept and the run aborts. -/
def MoneyBank.run (b : MoneyBank) (investor_name : String) :
    List Command → List String × Except PyError MoneyBank
  | [] => ([], .ok b)
  | c :: cs =>
    match b.dispatch investor_name c with
    | .error e => ([], .error e)
    | .ok (b1, out) =>
      let r := b1.run investor_name cs
      (out ++ r.1, r.2)

/-- `MoneyBank.execute_investor_commands`: lazily parse each line and dispatch
its commands, keeping the output printed before any uncaught exception. -/
def MoneyBank.execute_investor_commands (b : MoneyBank) (investor_name : String)
    (list_of_commands : List (List String)) (assets_order : List String) :
    List String × Except PyError MoneyBank :=
  match list_of_commands with
  | [] => ([], .ok b)
  | l :: ls =>
    match parse_line_2_commands l assets_order with
    | none => ([], .error .valueError)
    | some cs =>
      match b.run investor_name cs with
      | (out, .error e) => (out, .error e)
      | (out, .ok b1) =>
        let r := b1.execute_investor_commands investor_name ls assets_order
        (out ++ r.1, r.2)

/-! ### Concrete demonstration data: the two-asset 60/40 portfolio of the
end-to-end scenario, used by the concrete runs and witnesses below. -/

/-- The Equity/Debt assets weighted 60/40, keyed as in the scenario. -/
def demo_assets : List (String × Asset) :=
  [(("Equity"), { name := ("Equity"), allocation := 0, weight := 60 }),
   (("Debt"), { name := ("Debt"), allocation := 0, weight := 40 })]

/-- The scenario portfolio, exactly as `InvestorPortfolio.build` constructs it. -/
def demo_portfolio : InvestorPortfolio :=
  { name := ("John Doe"), assets := demo_assets,
    sip := [(("Equity"), (0 : ℚ)), (("Debt"), (0 : ℚ))] }

/-- The scenario engine, freshly constructed over the demo portfolio. -/
def demo_bank : MoneyBank := MoneyBank.init [demo_portfolio]

/-- The scenario input lines. -/
def c1_lines : List (List String) :=
  [[("ALLOCATE"), ("6000"), ("3000")],
   [("CHANGE"), ("10%"), ("MARCH")],
   [("BALANCE"), ("MARCH")]]

/-- The full scenario run. -/
def c1_result : List String × Except PyError MoneyBank :=
  demo_bank.execute_investor_commands ("John Doe") c1_lines [("Equity"), ("Debt")]

/-- The named investor's asset balances in the final state of a run. -/
def run_balances (r : List String × Except PyError MoneyBank) (name : String) :
    Option (List ℤ) :=
  match r.2 with
  | .ok b =>
    (match lookupA b.investors name with
     | some p => some p.balance
     | none => none)
  | .error _ => none

set_option maxRecDepth 10000 in
/-- Full evaluation of the end-to-end scenario: balances after the allocate
line, balances after the change line, and the printed output. -/
theorem c1_run_facts :
    run_balances (demo_bank.execute_investor_commands ("John Doe")
      [[("ALLOCATE"), ("6000"), ("3000")]] [("Equity"), ("Debt")]) ("John Doe")
      = some [6000, 3000] ∧
    run_balances (demo_bank.execute_investor_commands ("John Doe")
      [[("ALLOCATE"), ("6000"), ("3000")], [("CHANGE"), ("10%"), ("MARCH")]]
      [("Equity"), ("Debt")]) ("John Doe") = some [6600, 3000] ∧
    c1_result.1 = [("6600 3000")] := by
  refine ⟨?_, ?_, ?_⟩ <;>
  · simp [c1_result, demo_bank, demo_portfolio, demo_assets, c1_lines, run_balances,
      MoneyBank.execute_investor_commands, MoneyBank.init, MoneyBank.run,
      MoneyBank.dispatch, MoneyBank.allocate, MoneyBank.sip, MoneyBank.change,
      MoneyBank.balance, MoneyBank.rebalance, parse_line_2_commands,
      parse_list_2_commands, split_last, month_number_from_name, MONTH_NUMBER_,
      py_lower, parse_nums, list_of_strings_2_floats, py_float, py_float_core,
      split_dot, digits_go, has_char, lookupA, setAssoc, logSet,
      InvestorPortfolio.allocate, InvestorPortfolio.add_sip, InvestorPortfolio.change,
      InvestorPortfolio.rebalance, InvestorPortfolio.balance, addToAsset,
      Asset.setAllocation, Asset.monthly_rate_of_change, bank_rounding_system,
      SIP_MONTH, REBALANCE_MONTHS, REBALANCE_ERROR_MSG, INITIAL_MONTH, print_values]
    <;> norm_num <;> try decide

/-- C1: the end-to-end scenario as the specification states it is refuted by
the code: `CHANGE 10% MARCH` zips the single rate with the asset order, so
only Equity receives the +10% change and the run prints `6600 3000`,
not `6600 3300`. -/
theorem C1_counterexample :
    c1_result.1 = [("6600 3000")] ∧ c1_result.1 ≠ [("6600 3300")] := by
  refine ⟨c1_run_facts.2.2, ?_⟩
  rw [c1_run_facts.2.2]
  decide

/-- C1 (amended): processing `ALLOCATE 6000 3000`, `CHANGE 10% MARCH`,
`BALANCE MARCH` over assets Equity, Debt weighted 60/40 leaves Equity=6000,
Debt=3000 after the allocate; the change command (month 3 ≥ 2) applies the
default zero contribution and then the +10% rate change to Equity alone,
because the single parsed value is zipped with the first asset name, giving
Equity=6600, Debt=3000; and the balance command prints `6600 3000`. -/
theorem C1_amended_run :
    run_balances (demo_bank.execute_investor_commands ("John Doe")
      [[("ALLOCATE"), ("6000"), ("3000")]] [("Equity"), ("Debt")]) ("John Doe")
      = some [6000, 3000] ∧
    run_balances (demo_bank.execute_investor_commands ("John Doe")
      [[("ALLOCATE"), ("6000"), ("3000")], [("CHANGE"), ("10%"), ("MARCH")]]
      [("Equity"), ("Debt")]) ("John Doe") = some [6600, 3000] ∧
    c1_result.1 = [("6600 3000")] :=
  c1_run_facts

/-! ### Parser theorems -/

/-- Splitting off the last element of `l ++ [a]` yields `(l, a)`. -/
theorem split_last_append {α : Type} : ∀ (l : List α) (a : α),
    split_last (l ++ [a]) = some (l, a) := by
  intro l a
  induction l with
  | nil => rfl
  | cons x xs ih =>
    cases xs with
    | nil => rfl
    | cons y ys =>
      simp only [List.cons_append] at ih ⊢
      simp [split_last, ih]

/-- Cons-form of `split_last_append`, as `simp` normalises appends. -/
theorem split_last_cons_append {α : Type} (x : α) (l : List α) (a : α) :
    split_last (x :: (l ++ [a])) = some (x :: l, a) := by
  have h := split_last_append (x :: l) a
  simpa using h

/-- C6: refuted as stated: a line with zero tokens yields no `Command` at
all (the generator skips it), so a one-line input of an empty line produces
zero commands, not one command per input line. -/
theorem C6_counterexample :
    parse_list_2_commands [[]] [("Equity")] = some [] ∧
    (parse_list_2_commands [[]] [("Equity")]).map List.length ≠
      some ([[]] : List (List String)).length := by
  exact ⟨rfl, by decide⟩

/-- C6 (amended): the parser yields commands per input line in input order;
a line with exactly one token yields one `Command` whose name is the
lower-cased token, with empty values and month 0; a line with zero tokens
yields no `Command`. -/
theorem C6_amended_per_line :
    (∀ (t : String) (order : List String),
      parse_line_2_commands [t] order =
        some [{ name := py_lower t, values := [], month := 0 }]) ∧
    (∀ (order : List String), parse_line_2_commands [] order = some []) ∧
    (∀ (l : List String) (ls : List (List String)) (order : List String),
      parse_list_2_commands (l :: ls) order =
        match parse_line_2_commands l order, parse_list_2_commands ls order with
        | some cs, some rest => some (cs ++ rest)
        | _, _ => none) :=
  ⟨fun _ _ => rfl, fun _ => rfl, fun _ _ _ => rfl⟩

/-- C7: for a line of at least two tokens, the first token becomes the
lower-cased name; when the last token names a month (case-insensitively) it
is consumed as the 1-based month and the middle tokens are the values,
otherwise every token after the first is a value and the month is 0; a value
token containing a percent sign is parsed with the percent signs stripped
and divided by 100, any other token as a plain decimal; parsed values are
zipped positionally with the asset-name order. -/
theorem C7_parse_line_general :
    (∀ (first last : String) (mid order : List String) (m : ℕ),
      month_number_from_name last = some m →
      parse_line_2_commands (first :: (mid ++ [last])) order =
        (match list_of_strings_2_floats mid with
         | some values =>
           some [{ name := py_lower first, values := order.zip values, month := m }]
         | none => none)) ∧
    (∀ (first last : String) (mid order : List String),
      month_number_from_name last = none →
      parse_line_2_commands (first :: (mid ++ [last])) order =
        (match list_of_strings_2_floats (mid ++ [last]) with
         | some values =>
           some [{ name := py_lower first, values := order.zip values, month := 0 }]
         | none => none)) ∧
    (∀ (s : String), has_char s.data ('%') = true →
      parse_nums s =
        (match py_float (String.mk (s.data.filter (fun c => c ≠ '%'))) with
         | some q => some (q / 100)
         | none => none)) ∧
    (∀ (s : String), has_char s.data ('%') = false → parse_nums s = py_float s) := by
  refine ⟨?_, ?_, ?_, ?_⟩
  · intro first last mid order m h
    cases mid with
    | nil => simp [parse_line_2_commands, split_last, h]
    | cons m0 mrest => simp [parse_line_2_commands, split_last_cons_append, h]
  · intro first last mid order h
    cases mid with
    | nil => simp [parse_line_2_commands, split_last, h]
    | cons m0 mrest => simp [parse_line_2_commands, split_last_cons_append, h]
  · intro s h
    simp [parse_nums, h]
  · intro s h
    simp [parse_nums, h]

/-- Witness for C7 at the scenario's change line. -/
theorem C7_witness :
    month_number_from_name ("MARCH") = some 3 ∧
    parse_line_2_commands [("CHANGE"), ("10%"), ("MARCH")] [("Equity"), ("Debt")] =
      (match list_of_strings_2_floats [("10%")] with
       | some values =>
         some [{ name := py_lower ("CHANGE"),
                 values := [("Equity"), ("Debt")].zip values, month := 3 }]
       | none => none) :=
  ⟨by decide,
   C7_parse_line_general.1 ("CHANGE") ("MARCH") [("10%")] [("Equity"), ("Debt")] 3 (by decide)⟩

/-! ### Engine theorems -/

/-- Looking up a key just stored finds the stored value. -/
theorem lookupA_setAssoc {α β : Type} [DecidableEq α] (l : List (α × β)) (k : α) (v : β) :
    lookupA (setAssoc l k v) k = some v := by
  induction l with
  | nil => simp [setAssoc, lookupA]
  | cons x rest ih =>
    obtain ⟨k1, v1⟩ := x
    by_cases h : k = k1
    · simp [setAssoc, lookupA, h]
    · simp [setAssoc, lookupA, h, ih]

/-- C2: a successful change command sets `current_month` to its month and,
exactly when the month is at least `SIP_MONTH = 2`, applies the stored
recurring contribution exactly once before applying the rate change; for a
month below 2 the contribution is not applied at all. -/
theorem C2_change_sip_ordering :
    ∀ (b : MoneyBank) (name : String) (rates : List (String × ℚ)) (m : ℕ)
      (b1 : MoneyBank),
      b.change name rates m = .ok b1 →
      b1.current_month = some m ∧
      ∃ p p1, lookupA b.investors name = some p ∧
        lookupA b1.investors name = some p1 ∧
        (SIP_MONTH ≤ m → ∃ q, p.add_sip = some q ∧ q.change rates = some p1) ∧
        (m < SIP_MONTH → p.change rates = some p1) := by
  intro b name rates m b1 h
  by_cases hm : SIP_MONTH ≤ m
  · simp only [MoneyBank.change, hm, if_true] at h
    cases hp : lookupA b.investors name with
    | none => simp only [hp] at h; exact Except.noConfusion h
    | some p =>
      simp only [hp] at h
      cases hq : p.add_sip with
      | none => simp only [hq] at h; exact Except.noConfusion h
      | some q =>
        simp only [hq, lookupA_setAssoc] at h
        cases hc : q.change rates with
        | none => simp only [hc] at h; exact Except.noConfusion h
        | some p1 =>
          simp only [hc] at h
          cases hl : logSet b.log m name p1.balance with
          | none => simp only [hl] at h; exact Except.noConfusion h
          | some lg =>
            simp only [hl] at h
            cases h
            refine ⟨rfl, p, p1, rfl, ?_, ?_, ?_⟩
            · simp [lookupA_setAssoc]
            · intro _
              exact ⟨q, hq, hc⟩
            · intro hlt
              exact ((not_le.mpr hlt) hm).elim
  · simp only [MoneyBank.change, hm, if_false] at h
    cases hp : lookupA b.investors name with
    | none => simp only [hp] at h; exact Except.noConfusion h
    | some p =>
      simp only [hp] at h
      cases hc : p.change rates with
      | none => simp only [hc] at h; exact Except.noConfusion h
      | some p1 =>
        simp only [hc] at h
        cases hl : logSet b.log m name p1.balance with
        | none => simp only [hl] at h; exact Except.noConfusion h
        | some lg =>
          simp only [hl] at h
          cases h
          refine ⟨rfl, p, p1, rfl, ?_, ?_, ?_⟩
          · simp [lookupA_setAssoc]
          · intro hge
            exact (hm hge).elim
          · intro _
            exact hc

/-- The engine state after `change("John Doe", {Equity: 0}, 3)` on `demo_bank`. -/
def c2_changed : MoneyBank :=
  { initial_month := 1,
    investors := [(("John Doe"),
      { name := ("John Doe"),
        assets := [(("Equity"), { name := ("Equity"), allocation := 0, weight := 60 }),
                   (("Debt"), { name := ("Debt"), allocation := 0, weight := 40 })],
        sip := [(("Equity"), (0 : ℚ)), (("Debt"), (0 : ℚ))] })],
    log := [(0, []), (1, []), (2, []), (3, [(("John Doe"), [0, 0])]), (4, []), (5, []),
            (6, []), (7, []), (8, []), (9, []), (10, []), (11, [])],
    current_month := some 3 }

/-- Witness for C2: the demo change at month 3 applies the sip then the rate. -/
theorem C2_witness :
    c2_changed.current_month = some 3 ∧
    ∃ p p1, lookupA demo_bank.investors ("John Doe") = some p ∧
      lookupA c2_changed.investors ("John Doe") = some p1 ∧
      (SIP_MONTH ≤ 3 → ∃ q, p.add_sip = some q ∧
        q.change [(("Equity"), (0 : ℚ))] = some p1) ∧
      (3 < SIP_MONTH → p.change [(("Equity"), (0 : ℚ))] = some p1) :=
  C2_change_sip_ordering demo_bank ("John Doe") [(("Equity"), (0 : ℚ))] 3 c2_changed
    (by
      simp [demo_bank, demo_portfolio, demo_assets, c2_changed,
        MoneyBank.change, MoneyBank.init, logSet, lookupA, setAssoc,
        InvestorPortfolio.allocate, InvestorPortfolio.add_sip, InvestorPortfolio.change,
        InvestorPortfolio.balance, addToAsset, Asset.setAllocation,
        Asset.monthly_rate_of_change, bank_rounding_system,
        SIP_MONTH, INITIAL_MONTH, MONTH_NUMBER_]
      try norm_num
      try decide)

/-- C3: a rebalance command arriving while `current_month` is set to a month
outside {6, 12} returns `false` after printing exactly `CANNOT_REBALANCE`,
leaves the whole engine state (hence every portfolio, weight, sip mapping and
the snapshot log) untouched, and the dispatch loop continues with the
remaining commands. -/
theorem C3_rebalance_outside_months :
    ∀ (b : MoneyBank) (name : String) (m : ℕ),
      b.current_month = some m → m ∉ REBALANCE_MONTHS →
      b.rebalance name = .ok (false, b, [REBALANCE_ERROR_MSG]) ∧
      (∀ (vs : List (String × ℚ)) (mo : ℕ) (rest : List Command),
        b.run name ({ name := ("rebalance"), values := vs, month := mo } :: rest) =
          (REBALANCE_ERROR_MSG :: (b.run name rest).1, (b.run name rest).2)) := by
  intro b name m hc hm
  have hreb : b.rebalance name = .ok (false, b, [REBALANCE_ERROR_MSG]) := by
    simp only [MoneyBank.rebalance, hc]
    simp [hm]
  refine ⟨hreb, ?_⟩
  intro vs mo rest
  simp [MoneyBank.run, MoneyBank.dispatch, hreb]

/-- The demo engine with its month cursor at March. -/
def demo_bank_march : MoneyBank := { demo_bank with current_month := some 3 }

/-- Witness for C3 at the demo engine with `current_month = 3`. -/
theorem C3_witness :
    demo_bank_march.rebalance ("John Doe") =
      .ok (false, demo_bank_march, [REBALANCE_ERROR_MSG]) ∧
    (∀ (vs : List (String × ℚ)) (mo : ℕ) (rest : List Command),
      demo_bank_march.run ("John Doe")
          ({ name := ("rebalance"), values := vs, month := mo } :: rest) =
        (REBALANCE_ERROR_MSG :: (demo_bank_march.run ("John Doe") rest).1,
         (demo_bank_march.run ("John Doe") rest).2)) :=
  C3_rebalance_outside_months demo_bank_march ("John Doe") 3 rfl (by decide)

/-- C5: portfolio construction succeeds exactly when the asset weights sum
to 100 and otherwise fails with the weight-sum `ValueError`; an individual
asset's weight is validated to lie in [0, 100] at construction, failing with
a `ValueError` otherwise. -/
theorem C5_construction_validation :
    (∀ (name : String) (assets : List (String × Asset)),
      ((assets.map (fun x => x.2.weight)).sum = 100 →
        ∃ p, InvestorPortfolio.build name assets = .ok p) ∧
      ((assets.map (fun x => x.2.weight)).sum ≠ 100 →
        InvestorPortfolio.build name assets = .error .valueError)) ∧
    (∀ (name : String) (allocations : ℚ) (weight : ℤ),
      ((0 ≤ weight ∧ weight ≤ 100) →
        ∃ a, Asset.build name allocations weight = .ok a) ∧
      ((weight < 0 ∨ 100 < weight) →
        Asset.build name allocations weight = .error .valueError)) := by
  constructor
  · intro name assets
    constructor
    · intro h
      exact ⟨{ name := name, assets := assets,
               sip := assets.map (fun x => (x.1, (0 : ℚ))) },
             by simp [InvestorPortfolio.build, h]⟩
    · intro h
      simp [InvestorPortfolio.build, h]
  · intro name allocations weight
    constructor
    · intro h
      have hn : ¬(weight < 0 ∨ 100 < weight) := by
        push_neg
        exact h
      exact ⟨{ name := name, allocation := bank_rounding_system allocations,
               weight := weight },
             by simp [Asset.build, hn]⟩
    · intro h
      simp [Asset.build, h]

/-- Witness for C5: the 60/40 demo portfolio and a weight-10 asset build. -/
theorem C5_witness :
    (∃ p, InvestorPortfolio.build ("John Doe") demo_assets = .ok p) ∧
    (∃ a, Asset.build ("Gold") 0 10 = .ok a) :=
  ⟨(C5_construction_validation.1 ("John Doe") demo_assets).1 (by decide),
   (C5_construction_validation.2 ("Gold") 0 10).1 (by decide)⟩

/-- C8: every store into an asset's allocation — the plain setter, the
allocate/contribution addition, the rate change, and the rebalance store —
records the truncation toward zero of the computed amount (floor for
non-negative amounts, ceiling for negative ones); allocations have type `ℤ`,
so no fractional value is ever observable between operations. -/
theorem C8_every_store_truncates :
    (∀ (a : Asset) (x : ℚ), (a.setAllocation x).allocation = bank_rounding_system x) ∧
    (∀ (a : Asset) (rate : ℚ), (a.monthly_rate_of_change rate).allocation =
      bank_rounding_system ((a.allocation : ℚ) * (1 + rate))) ∧
    (∀ (assets : List (String × Asset)) (n : String) (v : ℚ) (a : Asset),
      lookupA assets n = some a →
      addToAsset assets n v =
        some (setAssoc assets n (a.setAllocation ((a.allocation : ℚ) + v)))) ∧
    (∀ (p : InvestorPortfolio),
      (p.rebalance).assets.map (fun x => x.2.allocation) =
        p.assets.map (fun x => bank_rounding_system
          ((((p.assets.map (fun y => y.2.allocation)).sum : ℤ) : ℚ) * x.2.weight / 100))) ∧
    (∀ (q : ℚ), (0 ≤ q → bank_rounding_system q = ⌊q⌋) ∧
      (q < 0 → bank_rounding_system q = ⌈q⌉)) := by
  refine ⟨fun a x => rfl, fun a rate => rfl, ?_, ?_, ?_⟩
  · intro assets n v a h
    simp [addToAsset, h]
  · intro p
    simp [InvestorPortfolio.rebalance, Asset.setAllocation]
  · intro q
    constructor
    · intro h
      simp [bank_rounding_system, not_lt.mpr h]
    · intro h
      have hc : (⌈q⌉ : ℤ) = -⌊-q⌋ := by
        have := Int.ceil_neg (α := ℚ) (a := -q)
        simpa using this
      simp [bank_rounding_system, h, hc]

/-- Witness for C8: the allocate-addition store on the demo assets, and the
two truncation directions at 7/2 and -7/2. -/
theorem C8_witness :
    addToAsset demo_assets ("Equity") 5 =
      some (setAssoc demo_assets ("Equity")
        (Asset.setAllocation { name := ("Equity"), allocation := 0, weight := 60 }
          (((0 : ℤ) : ℚ) + 5))) ∧
    bank_rounding_system (7 / 2) = ⌊(7 / 2 : ℚ)⌋ ∧
    bank_rounding_system (-(7 / 2)) = ⌈(-(7 / 2) : ℚ)⌉ :=
  ⟨C8_every_store_truncates.2.2.1 demo_assets ("Equity") 5
      { name := ("Equity"), allocation := 0, weight := 60 } (by decide),
   (C8_every_store_truncates.2.2.2.2 (7 / 2)).1 (by norm_num),
   (C8_every_store_truncates.2.2.2.2 (-(7 / 2))).2 (by norm_num)⟩

/-- C9: the snapshot log is initialised with keys 0 through 11 only, so a
change command for month 12 (December), and a permitted rebalance while
`current_month` is 12, both hit a missing log key and raise an unhandled
`KeyError` when recording the snapshot, although 12 is a valid month and a
designated rebalance month. -/
theorem C9_month12_keyerror :
    (∀ (invs : List InvestorPortfolio),
      (MoneyBank.init invs).log.map Prod.fst = List.range 12 ∧
      lookupA (MoneyBank.init invs).log 12 = none) ∧
    (∀ (b : MoneyBank) (name : String) (rates : List (String × ℚ))
       (p q p1 : InvestorPortfolio),
      lookupA b.investors name = some p → p.add_sip = some q →
      q.change rates = some p1 → lookupA b.log 12 = none →
      b.change name rates 12 = .error .keyError) ∧
    (∀ (b : MoneyBank) (name : String) (p : InvestorPortfolio),
      b.current_month = some 12 → lookupA b.investors name = some p →
      lookupA b.log 12 = none →
      b.rebalance name = .error .keyError) := by
  refine ⟨?_, ?_, ?_⟩
  · intro invs
    constructor
    · simp only [MoneyBank.init]
      decide
    · simp only [MoneyBank.init]
      decide
  · intro b name rates p q p1 hp hq hc hl
    have h12 : SIP_MONTH ≤ 12 := by norm_num [SIP_MONTH]
    simp only [MoneyBank.change, if_pos h12, hp, hq, lookupA_setAssoc, hc, logSet, hl]
  · intro b name p hc hp hl
    have hmem : (12 : ℕ) ∈ REBALANCE_MONTHS := by decide
    simp only [MoneyBank.rebalance, hc, if_pos hmem, hp, logSet, lookupA_setAssoc, hl]

/-- The demo engine with its month cursor at December. -/
def demo_bank_december : MoneyBank := { demo_bank with current_month := some 12 }

/-- Witness for C9: fresh-log key facts, a December change, and a December
rebalance on the demo engine. -/
theorem C9_witness :
    ((MoneyBank.init [demo_portfolio]).log.map Prod.fst = List.range 12 ∧
      lookupA (MoneyBank.init [demo_portfolio]).log 12 = none) ∧
    demo_bank.change ("John Doe") [(("Equity"), (0 : ℚ))] 12 = .error .keyError ∧
    demo_bank_december.rebalance ("John Doe") = .error .keyError :=
  ⟨C9_month12_keyerror.1 [demo_portfolio],
   C9_month12_keyerror.2.1 demo_bank ("John Doe") [(("Equity"), (0 : ℚ))]
     demo_portfolio demo_portfolio demo_portfolio
     (by decide)
     (by
       simp [demo_portfolio, demo_assets, InvestorPortfolio.add_sip,
         InvestorPortfolio.allocate, addToAsset, lookupA, setAssoc,
         Asset.setAllocation, bank_rounding_system]
       try norm_num
       try decide)
     (by
       simp [demo_portfolio, demo_assets, InvestorPortfolio.change, lookupA, setAssoc,
         Asset.setAllocation, Asset.monthly_rate_of_change, bank_rounding_system]
       try norm_num
       try decide)
     (by decide),
   C9_month12_keyerror.2.2 demo_bank_december ("John Doe") demo_portfolio rfl
     (by decide) (by decide)⟩

/-- C10: `MoneyBank.__init__` never assigns `current_month`, so a rebalance
command arriving before any change command reads the missing attribute and
raises an unhandled `AttributeError` instead of printing `CANNOT_REBALANCE`;
the documented rejection behaviour presupposes an earlier change command. -/
theorem C10_rebalance_before_change :
    (∀ (invs : List InvestorPortfolio), (MoneyBank.init invs).current_month = none) ∧
    (∀ (b : MoneyBank) (name : String),
      b.current_month = none → b.rebalance name = .error .attributeError) ∧
    demo_bank.execute_investor_commands ("John Doe") [[("REBALANCE")]]
      [("Equity"), ("Debt")] = ([], .error .attributeError) := by
  refine ⟨fun invs => rfl, ?_, ?_⟩
  · intro b name h
    simp [MoneyBank.rebalance, h]
  · rfl

/-- Witness for C10 at the freshly constructed demo engine. -/
theorem C10_witness :
    demo_bank.rebalance ("John Doe") = .error .attributeError :=
  C10_rebalance_before_change.2.1 demo_bank ("John Doe") rfl

/-! ### Rebalance arithmetic -/

/-- Truncation toward zero moves a rational by less than one. -/
theorem trunc_diff_abs_le (q : ℚ) : |q - (bank_rounding_system q : ℚ)| ≤ 1 := by
  rw [abs_le]
  by_cases h : q < 0
  · simp only [bank_rounding_system, if_pos h]
    push_cast
    have h1 := Int.floor_le (-q)
    have h2 := Int.lt_floor_add_one (-q)
    constructor
    · linarith
    · linarith
  · simp only [bank_rounding_system, if_neg h]
    have h1 := Int.floor_le q
    have h2 := Int.lt_floor_add_one q
    constructor
    · linarith
    · linarith

/-- A list of rationals each of absolute value at most one sums to at most
its length in absolute value. -/
theorem sum_abs_le_length (l : List ℚ) (h : ∀ x ∈ l, |x| ≤ 1) :
    |l.sum| ≤ (l.length : ℚ) := by
  induction l with
  | nil => simp
  | cons a t ih =>
    have ha := h a (by simp)
    have ht := ih (fun x hx => h x (by simp [hx]))
    have habs : |a + t.sum| ≤ |a| + |t.sum| := abs_add a t.sum
    have hlen : ((a :: t).length : ℚ) = (t.length : ℚ) + 1 := by
      push_cast [List.length_cons]
      ring
    rw [List.sum_cons, hlen]
    linarith

/-- Pointwise subtraction distributes over a mapped list sum. -/
theorem list_sum_map_sub {α : Type} (f g : α → ℚ) (l : List α) :
    (l.map (fun x => f x - g x)).sum = (l.map f).sum - (l.map g).sum := by
  induction l with
  | nil => simp
  | cons a t ih =>
    simp [ih]
    ring

/-- Casting an integer mapped sum into the rationals. -/
theorem list_sum_map_cast {α : Type} (f : α → ℤ) (l : List α) :
    (((l.map f).sum : ℤ) : ℚ) = (l.map (fun x => ((f x : ℤ) : ℚ))).sum := by
  induction l with
  | nil => simp
  | cons a t ih =>
    push_cast [List.map_cons, List.sum_cons]
    push_cast at ih
    rw [ih]

/-- Factoring `c * _ / 100` out of a mapped list sum. -/
theorem sum_map_mul_div {α : Type} (c : ℚ) (g : α → ℚ) (l : List α) :
    (l.map (fun x => c * g x / 100)).sum = c * (l.map g).sum / 100 := by
  induction l with
  | nil => simp
  | cons a t ih =>
    simp [ih]
    ring

/-- C4: when the weights sum to 100 (the constructor invariant), rebalance
stores `truncate(total * weight / 100)` for every asset, with the total
captured before any asset is mutated, and the rebalanced total differs from
the previous total by at most the number of assets. -/
theorem C4_rebalance_total_preservation :
    ∀ (p : InvestorPortfolio),
      (p.assets.map (fun x => x.2.weight)).sum = 100 →
      (p.rebalance).assets = p.assets.map (fun x => (x.1, x.2.setAllocation
        ((((p.assets.map (fun y => y.2.allocation)).sum : ℤ) : ℚ) * x.2.weight / 100))) ∧
      |((p.rebalance).assets.map (fun x => x.2.allocation)).sum -
        (p.assets.map (fun x => x.2.allocation)).sum| ≤ (p.assets.length : ℤ) := by
  intro p hw
  constructor
  · rfl
  have hafter : (p.rebalance).assets.map (fun x => x.2.allocation) =
      p.assets.map (fun x => bank_rounding_system
        ((((p.assets.map (fun y => y.2.allocation)).sum : ℤ) : ℚ) * x.2.weight / 100)) := by
    simp [InvestorPortfolio.rebalance, Asset.setAllocation, List.map_map, Function.comp]
  rw [hafter]
  have hwq : (p.assets.map (fun x => ((x.2.weight : ℤ) : ℚ))).sum = (100 : ℚ) := by
    rw [← list_sum_map_cast]
    rw [hw]
    norm_num
  have key : (((p.assets.map (fun x => bank_rounding_system
        ((((p.assets.map (fun y => y.2.allocation)).sum : ℤ) : ℚ) * x.2.weight / 100))).sum -
        (p.assets.map (fun x => x.2.allocation)).sum : ℤ) : ℚ) =
      (p.assets.map (fun x =>
        ((bank_rounding_system
          ((((p.assets.map (fun y => y.2.allocation)).sum : ℤ) : ℚ) * x.2.weight / 100) : ℤ) : ℚ) -
        (((p.assets.map (fun y => y.2.allocation)).sum : ℤ) : ℚ) * x.2.weight / 100)).sum := by
    rw [list_sum_map_sub]
    rw [← list_sum_map_cast]
    have h2 : (p.assets.map (fun x =>
        (((p.assets.map (fun y => y.2.allocation)).sum : ℤ) : ℚ) * x.2.weight / 100)).sum =
        (((p.assets.map (fun y => y.2.allocation)).sum : ℤ) : ℚ) := by
      rw [sum_map_mul_div (((p.assets.map (fun y => y.2.allocation)).sum : ℤ) : ℚ)
        (fun x => ((x.2.weight : ℤ) : ℚ)) p.assets]
      rw [hwq]
      rw [mul_div_assoc]
      norm_num
    rw [h2]
    push_cast
    ring
  have hb : |(((p.assets.map (fun x => bank_rounding_system
        ((((p.assets.map (fun y => y.2.allocation)).sum : ℤ) : ℚ) * x.2.weight / 100))).sum -
        (p.assets.map (fun x => x.2.allocation)).sum : ℤ) : ℚ)| ≤ (p.assets.length : ℚ) := by
    rw [key]
    have hbound := sum_abs_le_length
      (p.assets.map (fun x =>
        ((bank_rounding_system
          ((((p.assets.map (fun y => y.2.allocation)).sum : ℤ) : ℚ) * x.2.weight / 100) : ℤ) : ℚ) -
        (((p.assets.map (fun y => y.2.allocation)).sum : ℤ) : ℚ) * x.2.weight / 100))
      (by
        intro x hx
        obtain ⟨a, ha, rfl⟩ := List.mem_map.mp hx
        have hd := trunc_diff_abs_le
          ((((p.assets.map (fun y => y.2.allocation)).sum : ℤ) : ℚ) * a.2.weight / 100)
        rw [abs_sub_comm] at hd
        exact hd)
    simpa [List.length_map] using hbound
  exact_mod_cast hb

/-- Witness for C4 at the 60/40 demo portfolio. -/
theorem C4_witness :
    (demo_portfolio.rebalance).assets = demo_portfolio.assets.map (fun x =>
      (x.1, x.2.setAllocation
        ((((demo_portfolio.assets.map (fun y => y.2.allocation)).sum : ℤ) : ℚ) *
          x.2.weight / 100))) ∧
    |((demo_portfolio.rebalance).assets.map (fun x => x.2.allocation)).sum -
      (demo_portfolio.assets.map (fun x => x.2.allocation)).sum| ≤
      (demo_portfolio.assets.length : ℤ) :=
  C4_rebalance_total_preservation demo_portfolio (by decide)
